import Mathlib

/-!
# Verification of the Football period tracker and probability fusion engine

Shallow embedding of the two core source files of the repository:

* `check_new_period.js` — the Period Tracker (`extractPeriodNumber`,
  `checkNewPeriod`, and the Observation Log stored in `present.json`);
* `combine_probability.js` — the Probability Fusion Engine
  (`parseProbability`, `calculateCombinedProbabilities`).

JavaScript numbers are modelled as rationals (`ℚ`), JSON values by the
inductive type `JsVal`, possibly-absent fields by `Option`, and thrown
exceptions by `Except String`.  Definitions mirror the JavaScript source
line by line; theorems below settle the specification claims.
-/

namespace Football

/-- A JSON value as it reaches the fusion arithmetic: a number, a string,
or an object (list of key/value fields).  Numbers are embedded as `ℚ`. -/
inductive JsVal : Type where
  | num (q : ℚ)
  | str (s : String)
  | obj (fields : List (String × JsVal))

/-- JavaScript truthiness of a `JsVal`: `0` and `""` are falsy, every
object (even `{}`) is truthy. -/
def jsTruthy : JsVal → Bool
  | .num q => q ≠ 0
  | .str s => s ≠ ""
  | .obj _ => true

/-- The JavaScript expression `x || y`, where `x` is a possibly-`undefined`
field access (`undefined` is falsy). -/
def jsOr (x : Option JsVal) (y : JsVal) : JsVal :=
  match x with
  | none => y
  | some v => if jsTruthy v then v else y

/-- Accumulate a list of decimal digit characters into a natural number,
as `parseInt(run, 10)` does on a digit run. -/
def digitsToNat (l : List Char) : Nat :=
  l.foldl (fun a c => a * 10 + (c.toNat - 48)) 0

/-- The first match of the regex `/(\d+)/` over a character list: the digit
run starting at the first digit, or `none` when no digit occurs.
(Embeds `periodStr.toString().match(/(\d+)/)` in `check_new_period.js`.) -/
def firstDigitRun : List Char → Option (List Char)
  | [] => none
  | c :: cs => if c.isDigit then some (c :: cs.takeWhile Char.isDigit) else firstDigitRun cs

/-- Embedding of `extractPeriodNumber` from `check_new_period.js` (lines 129–135):
`if (!periodStr) return 0;` then match `/(\d+)/` and `parseInt` the
captured run, returning `0` when there is no match.  The argument is
`Option String` to model a `null`/`undefined` input. -/
def extractPeriodNumber (periodStr : Option String) : Nat :=
  match periodStr with
  | none => 0
  | some s =>
    if s = "" then 0
    else
      match firstDigitRun s.data with
      | none => 0
      | some run => digitsToNat run

/-- The first match of the regex `/(\d+\.?\d*)/`: integer-part digit run
and (possibly empty) fraction-part digit run, starting at the first digit. -/
def firstNumberRun : List Char → Option (List Char × List Char)
  | [] => none
  | c :: cs =>
    if c.isDigit then
      let ip := c :: cs.takeWhile Char.isDigit
      match cs.dropWhile Char.isDigit with
      | '.' :: rest => some (ip, rest.takeWhile Char.isDigit)
      | _ => some (ip, [])
    else firstNumberRun cs

/-- Embedding of `parseProbability` from `combine_probability.js` (lines 153–160): a
number is used as-is; a string is matched against `/(\d+\.?\d*)/`,
`parseFloat`-ed and divided by `100` (no match gives `0`); anything else
gives `0`. -/
def parseProbability (probStr : JsVal) : ℚ :=
  match probStr with
  | .num q => q
  | .str s =>
    match firstNumberRun s.data with
    | none => 0
    | some (ip, fp) => ((digitsToNat ip : ℚ) + (digitsToNat fp : ℚ) / 10 ^ fp.length) / 100
  | .obj _ => 0

/-! ## Period Tracker (`check_new_period.js`) -/

/-- One record of the Observation Log (`present.json`), as written by
`appendToPresentJson` (lines 164–168): `{ period, timestamp, period_number }`.
`periodNumber` models the JSON field `period_number`, which a hand-made or
older-format record may lack, hence `Option`. -/
structure PresentRecord : Type where
  period : String
  timestamp : String
  periodNumber : Option Nat
  deriving DecidableEq

/-- JavaScript falsiness of the `currentPeriod` variable in
`checkNewPeriod` (`if (!currentPeriod)`, line 267): `null`/`undefined`
and the empty string are falsy. -/
def jsStrFalsy (o : Option String) : Bool :=
  match o with
  | none => true
  | some s => s == ""

/-- The expression `lastRecord.period_number || extractPeriodNumber(lastRecord.period)`
(line 302): a missing or `0`-valued `period_number` field falls back to
re-deriving the number from the stored `period` string. -/
def lastPeriodNumOf (lastRecord : PresentRecord) : Nat :=
  match lastRecord.periodNumber with
  | none => extractPeriodNumber (some lastRecord.period)
  | some n => if n = 0 then extractPeriodNumber (some lastRecord.period) else n

/-- The record appended by `appendToPresentJson(period, timestamp)`
(lines 164–168). -/
def newPresentRecord (period timestamp : String) : PresentRecord :=
  { period := period, timestamp := timestamp
    periodNumber := some (extractPeriodNumber (some period)) }

/-- Result of one `checkNewPeriod` run: the returned boolean, the
`exit_code` output, and the Observation Log after the run. -/
structure CheckResult : Type where
  hasNewPeriod : Bool
  exitCode : Nat
  log : List PresentRecord
  deriving DecidableEq

/-- Embedding of `checkNewPeriod` from `check_new_period.js` (lines 251–346).
Inputs: `currentSignal` — the value produced by `getCurrentPeriod()`
(`none` when the upstream fetch failed or returned nothing);
`latestFilePeriod` — the number returned by `getLatestPeriodFromFiles()`;
`log` — the Observation Log read from `present.json` (`[]` when the file
is missing, empty or malformed); `ts` — the ISO-8601 capture timestamp.

Mirrors the source: an absent signal consults the local-file fallback and
reports no new period either way (lines 267–286); a present signal is
decoded, compared against the log's last record (lines 288–312), the
observation is appended unconditionally (lines 314–318), and the result
maps to exit code 2 (new) or 0 (no new). -/
def checkNewPeriod (currentSignal : Option String) (latestFilePeriod : Nat)
    (log : List PresentRecord) (ts : String) : CheckResult :=
  if jsStrFalsy currentSignal then
    if latestFilePeriod > 0 then
      { hasNewPeriod := false, exitCode := 0, log := log }
    else
      { hasNewPeriod := false, exitCode := 0, log := log }
  else
    let s := currentSignal.getD ""
    let currentPeriodNum := extractPeriodNumber (some s)
    let hasNew : Bool :=
      match log.getLast? with
      | none => true
      | some lastRecord => lastPeriodNumOf lastRecord < currentPeriodNum
    { hasNewPeriod := hasNew
      exitCode := if hasNew then 2 else 0
      log := log ++ [newPresentRecord s ts] }

/-- The claim's reading of the last entry's period number: the stored
`period_number` field, re-derived from the stored `period` string only
when the numeric field is missing. -/
def claimLastNumber (lastRecord : PresentRecord) : Nat :=
  lastRecord.periodNumber.getD (extractPeriodNumber (some lastRecord.period))

/-- A log record is well formed when its `period_number` field, if
present, is the number derived from its `period` string — exactly what
`appendToPresentJson` writes. -/
def WellFormedRecord (r : PresentRecord) : Prop :=
  r.periodNumber = none ∨ r.periodNumber = some (extractPeriodNumber (some r.period))

theorem newPresentRecord_wellFormed (period timestamp : String) :
    WellFormedRecord (newPresentRecord period timestamp) :=
  Or.inr rfl

theorem lastPeriodNumOf_eq_claim (r : PresentRecord) (h : WellFormedRecord r) :
    lastPeriodNumOf r = claimLastNumber r := by
  rcases h with h | h <;> simp [lastPeriodNumOf, claimLastNumber, h]

/-! ## Probability Fusion Engine (`combine_probability.js`) -/

/-- One match record of a source document (an element of the
`14场对战信息` array).  Field names translate the JSON keys:
`matchId` = `场次`, `league` = `联赛`, `homeTeam` = `主队`,
`awayTeam` = `客队`, `matchTime` = `比赛时间`, `probs` = `预测概率`
(an object, modelled as an association list, possibly absent),
`detail` = `预测详细数据` (an arbitrary payload, possibly absent). -/
structure MatchRecord : Type where
  matchId : String
  league : String
  homeTeam : String
  awayTeam : String
  matchTime : String
  probs : Option (List (String × JsVal))
  detail : Option JsVal

/-- Field access `dict?.[key]` on the `预测概率` object: `none` when the
object itself or the key is absent. -/
def dictGet (d : Option (List (String × JsVal))) (key : String) : Option JsVal :=
  d.bind fun fields => (fields.find? (fun p => p.1 == key)).map (fun p => p.2)

/-- A win/draw/loss triple of rationals. -/
structure SourceProbs : Type where
  win : ℚ
  draw : ℚ
  loss : ℚ
  deriving DecidableEq

/-- Probability extraction for one source (lines 185–191): each component
is `parseProbability(probs?.[key1] || probs?.[key2] || 0)`, where the
first key is built from the **basic** record's team names
(`` `${basicMatch.主队}胜` ``, `平`, `` `${basicMatch.客队}胜` ``) and the
second is the plain `胜`/`平`/`负` field. -/
def extractProbs (probs : Option (List (String × JsVal)))
    (homeTeam awayTeam : String) : SourceProbs :=
  { win := parseProbability (jsOr (dictGet probs (homeTeam ++ "胜"))
      (jsOr (dictGet probs "胜") (.num 0)))
    draw := parseProbability (jsOr (dictGet probs "平") (.num 0))
    loss := parseProbability (jsOr (dictGet probs (awayTeam ++ "胜"))
      (jsOr (dictGet probs "负") (.num 0))) }

/-- The discounted-basic weighting of lines 194–196:
`combined = basic × 0.8 + advanced`, per outcome. -/
def combinedTriple (basicP advancedP : SourceProbs) : SourceProbs :=
  { win := basicP.win * (8 / 10) + advancedP.win
    draw := basicP.draw * (8 / 10) + advancedP.draw
    loss := basicP.loss * (8 / 10) + advancedP.loss }

/-- Normalization of lines 199–202: divide by the component sum when it is
positive, otherwise fall back to `0.333` per component. -/
def normalizeTriple (c : SourceProbs) : SourceProbs :=
  let total := c.win + c.draw + c.loss
  if 0 < total then
    { win := c.win / total, draw := c.draw / total, loss := c.loss / total }
  else
    { win := 333 / 1000, draw := 333 / 1000, loss := 333 / 1000 }

/-- Outcome decision of lines 205–212: `3` (home win) when the win
probability is ≥ both others, else `1` (draw) when the draw probability is
≥ both others, else `0` (away win). -/
def decideResult (n : SourceProbs) : Nat :=
  if n.draw ≤ n.win ∧ n.loss ≤ n.win then 3
  else if n.win ≤ n.draw ∧ n.loss ≤ n.draw then 1
  else 0

/-- One element of the `results` array pushed at lines 214–237.
`basicProbs` = `基础预测概率`, `advancedProbs` = `高级预测概率` (both the
raw extracted triples), `fused` = `合并概率`, `result` = `预测结果`,
`detail` = `预测详细数据`. -/
structure FusedResult : Type where
  matchId : String
  league : String
  homeTeam : String
  awayTeam : String
  matchTime : String
  basicProbs : SourceProbs
  advancedProbs : SourceProbs
  fused : SourceProbs
  result : Nat
  detail : JsVal

/-- The per-match body of the loop (lines 184–237), applied to a basic
record and the advanced record found for it.  Note both extractions key on
the basic record's team names, exactly as in the source, and the output
`detail` is `advancedMatch.预测详细数据 || basicMatch.预测详细数据 || {}`. -/
def fuseOne (basicMatch advancedMatch : MatchRecord) : FusedResult :=
  let basicP := extractProbs basicMatch.probs basicMatch.homeTeam basicMatch.awayTeam
  let advancedP := extractProbs advancedMatch.probs basicMatch.homeTeam basicMatch.awayTeam
  let normalized := normalizeTriple (combinedTriple basicP advancedP)
  { matchId := basicMatch.matchId
    league := basicMatch.league
    homeTeam := basicMatch.homeTeam
    awayTeam := basicMatch.awayTeam
    matchTime := basicMatch.matchTime
    basicProbs := basicP
    advancedProbs := advancedP
    fused := normalized
    result := decideResult normalized
    detail := jsOr advancedMatch.detail (jsOr basicMatch.detail (.obj [])) }

/-- The `for (const basicMatch of basicMatches)` loop (lines 176–238):
look up the advanced record by `场次` with `find`, skip (with a warning)
when none exists, otherwise push the fused result. -/
def combineLoop (advancedMatches : List MatchRecord) :
    List MatchRecord → List FusedResult
  | [] => []
  | basicMatch :: rest =>
    match advancedMatches.find? (fun m => m.matchId == basicMatch.matchId) with
    | none => combineLoop advancedMatches rest
    | some advancedMatch => fuseOne basicMatch advancedMatch :: combineLoop advancedMatches rest

/-- Embedding of `calculateCombinedProbabilities` from `combine_probability.js`
(lines 162–241).  The arguments model `basicData['14场对战信息'] || []`
and `advancedData['14场对战信息'] || []`; a thrown error is an
`Except.error` carrying the message. -/
def calculateCombinedProbabilities (basicData advancedData : Option (List MatchRecord)) :
    Except String (List FusedResult) :=
  let basicMatches := basicData.getD []
  let advancedMatches := advancedData.getD []
  if basicMatches.length = 0 then
    .error "基础预测概率文件中没有比赛数据"
  else if advancedMatches.length = 0 then
    .error "高级预测概率文件中没有比赛数据"
  else
    .ok (combineLoop advancedMatches basicMatches)

/-! ## Specification readings of the period-number extraction rule -/

/-- The claim's stated rule, taken literally: the *leading* digit run of
`p`, i.e. the maximal digit prefix (empty when `p` does not start with a
digit), with `0` for an absent string. -/
def leadingDigitRunSpec (p : Option String) : Nat :=
  match p with
  | none => 0
  | some s => digitsToNat (s.data.takeWhile Char.isDigit)

/-- The rule the code actually implements, stated declaratively: drop
characters up to the first digit, then take the maximal digit run there
(`0` for an absent string or one with no digits). -/
def firstDigitRunSpec (p : Option String) : Nat :=
  match p with
  | none => 0
  | some s => digitsToNat ((s.data.dropWhile (fun c => !c.isDigit)).takeWhile Char.isDigit)

theorem firstDigitRun_value (l : List Char) :
    (match firstDigitRun l with
      | none => 0
      | some run => digitsToNat run)
      = digitsToNat ((l.dropWhile (fun c => !c.isDigit)).takeWhile Char.isDigit) := by
  induction l with
  | nil => rfl
  | cons c cs ih =>
    by_cases h : c.isDigit
    · simp [firstDigitRun, h, List.dropWhile_cons, List.takeWhile_cons]
    · simpa [firstDigitRun, h, List.dropWhile_cons] using ih

/-! ## Claim C4 — period-number extraction rule -/

/-- C4 counterexample: `extractPeriodNumber` does **not** return the
leading digit run.  On `"x26027"` the leading digit run is empty (the
string does not start with a digit), so the claimed rule yields `0`, but
the code's regex `/(\d+)/` finds the run `26027` anywhere in the string. -/
theorem extractPeriodNumber_not_leading_run :
    extractPeriodNumber (some "x26027") = 26027 ∧
    leadingDigitRunSpec (some "x26027") = 0 ∧
    extractPeriodNumber (some "x26027") ≠ leadingDigitRunSpec (some "x26027") := by
  refine ⟨by decide, by decide, by decide⟩

/-- C4 (amended): for every period string `p`, `extractPeriodNumber p`
returns the **first** digit run of `p` (wherever it starts) parsed as an
integer, and returns `0` when `p` is absent (`null`/empty) or contains no
digits. -/
theorem extractPeriodNumber_eq_firstDigitRunSpec (p : Option String) :
    extractPeriodNumber p = firstDigitRunSpec p := by
  cases p with
  | none => rfl
  | some s =>
    by_cases hs : s = ""
    · subst hs; rfl
    · simpa [extractPeriodNumber, firstDigitRunSpec, hs] using firstDigitRun_value s.data

/-- C4 witness: the amended rule evaluated on the spec's own example
`"26027期"`. -/
theorem extractPeriodNumber_eq_firstDigitRunSpec_witness :
    extractPeriodNumber (some "26027期") = firstDigitRunSpec (some "26027期") ∧
    extractPeriodNumber (some "26027期") = 26027 :=
  ⟨extractPeriodNumber_eq_firstDigitRunSpec (some "26027期"), by decide⟩

/-! ## Claim C3 — new-period monotonicity -/

/-- C3: with a present signal decoding to `M` and a well-formed last log
entry carrying period number `N` (the stored `period_number`, re-derived
from the stored `period` string when the numeric field is missing),
`checkNewPeriod` reports `has_new_period = (M > N)`; equality and
regression both yield `false`. -/
theorem checkNewPeriod_monotonic (s : String) (latestFilePeriod : Nat)
    (log : List PresentRecord) (ts : String) (lastRecord : PresentRecord)
    (hs : jsStrFalsy (some s) = false)
    (hlast : log.getLast? = some lastRecord)
    (hwf : WellFormedRecord lastRecord) :
    (checkNewPeriod (some s) latestFilePeriod log ts).hasNewPeriod
      = decide (claimLastNumber lastRecord < extractPeriodNumber (some s)) := by
  simp only [checkNewPeriod, hs, Bool.false_eq_true, if_false, hlast,
    lastPeriodNumOf_eq_claim lastRecord hwf, Option.getD_some]

/-- C3 witness: last entry `26027期` (stored number 26027), current signal
`"26027期"` — equality yields `false`. -/
theorem checkNewPeriod_monotonic_witness :
    (checkNewPeriod (some "26027期") 0
      [{ period := "26027期", timestamp := "2026-02-07T00:00:00Z", periodNumber := some 26027 }]
      "2026-02-08T00:00:00Z").hasNewPeriod = false := by
  rw [checkNewPeriod_monotonic "26027期" 0
    [{ period := "26027期", timestamp := "2026-02-07T00:00:00Z", periodNumber := some 26027 }]
    "2026-02-08T00:00:00Z"
    { period := "26027期", timestamp := "2026-02-07T00:00:00Z", periodNumber := some 26027 }
    rfl rfl (Or.inr rfl)]
  decide

/-! ## Claim C7 — absent signal leaves the log untouched -/

/-- C7: when the current-period signal is absent, `checkNewPeriod`
reports `has_new_period = false` with exit code `0` — whatever the
local-file fallback finds — and the Observation Log is unchanged. -/
theorem checkNewPeriod_absent_signal (currentSignal : Option String)
    (latestFilePeriod : Nat) (log : List PresentRecord) (ts : String)
    (h : jsStrFalsy currentSignal = true) :
    checkNewPeriod currentSignal latestFilePeriod log ts
      = { hasNewPeriod := false, exitCode := 0, log := log } := by
  simp [checkNewPeriod, h]

/-- C7 witness: failed fetch (`none`) with a locally materialized period
(`latestFilePeriod = 26026`) and a non-empty log. -/
theorem checkNewPeriod_absent_signal_witness :
    checkNewPeriod none 26026
      [{ period := "26026期", timestamp := "2026-02-01T00:00:00Z", periodNumber := some 26026 }]
      "2026-02-08T00:00:00Z"
      = { hasNewPeriod := false, exitCode := 0,
          log := [{ period := "26026期", timestamp := "2026-02-01T00:00:00Z",
                    periodNumber := some 26026 }] } :=
  checkNewPeriod_absent_signal none 26026 _ _ rfl

/-! ## Helper lemmas on `fuseOne` -/

theorem fuseOne_fused (b a : MatchRecord) :
    (fuseOne b a).fused = normalizeTriple (combinedTriple
      (extractProbs b.probs b.homeTeam b.awayTeam)
      (extractProbs a.probs b.homeTeam b.awayTeam)) := rfl

theorem fuseOne_result (b a : MatchRecord) :
    (fuseOne b a).result = decideResult (fuseOne b a).fused := rfl

theorem fuseOne_detail (b a : MatchRecord) :
    (fuseOne b a).detail = jsOr a.detail (jsOr b.detail (.obj [])) := rfl

theorem decideResult_uniform : decideResult ⟨333/1000, 333/1000, 333/1000⟩ = 3 := by
  rw [decideResult, if_pos]
  constructor <;> norm_num

/-- Evaluation of `extractProbs` on a source whose `预测概率` object has
no team-name keys and nonzero plain `胜`/`平`/`负` entries. -/
theorem extractProbs_eval (probs : Option (List (String × JsVal))) (home away : String)
    (w d l : ℚ) (hw : w ≠ 0) (hd : d ≠ 0) (hl : l ≠ 0)
    (h1 : dictGet probs (home ++ "胜") = none)
    (h2 : dictGet probs "胜" = some (.num w))
    (h3 : dictGet probs "平" = some (.num d))
    (h4 : dictGet probs (away ++ "胜") = none)
    (h5 : dictGet probs "负" = some (.num l)) :
    extractProbs probs home away = ⟨w, d, l⟩ := by
  unfold extractProbs
  rw [h1, h2, h3, h4, h5]
  simp [jsOr, jsTruthy, parseProbability, hw, hd, hl]

/-! ## Claim C1 — degenerate fusion of two all-zero sources -/

/-- A basic-source record reporting the probability triple `(0,0,0)`. -/
def zeroBasicRecord : MatchRecord :=
  { matchId := "1", league := "英超", homeTeam := "曼城", awayTeam := "利物浦",
    matchTime := "2026-02-07 23:00",
    probs := some [("胜", .num 0), ("平", .num 0), ("负", .num 0)],
    detail := none }

/-- An advanced-source record reporting the probability triple `(0,0,0)`. -/
def zeroAdvancedRecord : MatchRecord :=
  { matchId := "1", league := "英超", homeTeam := "曼城", awayTeam := "利物浦",
    matchTime := "2026-02-07 23:00",
    probs := some [("胜", .num 0), ("平", .num 0), ("负", .num 0)],
    detail := none }

/-- C1 counterexample: with both sources reporting `(0,0,0)`, the fused
win component is the literal `0.333` of lines 200–202, which is **not**
`1/3`. -/
theorem fusion_degenerate_not_one_third :
    extractProbs zeroBasicRecord.probs zeroBasicRecord.homeTeam zeroBasicRecord.awayTeam
      = ⟨0, 0, 0⟩ ∧
    extractProbs zeroAdvancedRecord.probs zeroBasicRecord.homeTeam zeroBasicRecord.awayTeam
      = ⟨0, 0, 0⟩ ∧
    (fuseOne zeroBasicRecord zeroAdvancedRecord).fused.win ≠ 1/3 := by
  refine ⟨rfl, rfl, ?_⟩
  have hb : extractProbs zeroBasicRecord.probs zeroBasicRecord.homeTeam
      zeroBasicRecord.awayTeam = ⟨0, 0, 0⟩ := rfl
  have ha : extractProbs zeroAdvancedRecord.probs zeroBasicRecord.homeTeam
      zeroBasicRecord.awayTeam = ⟨0, 0, 0⟩ := rfl
  rw [show (fuseOne zeroBasicRecord zeroAdvancedRecord).fused
      = normalizeTriple (combinedTriple ⟨0, 0, 0⟩ ⟨0, 0, 0⟩) from
    (fuseOne_fused zeroBasicRecord zeroAdvancedRecord).trans (by rw [hb, ha])]
  norm_num [combinedTriple, normalizeTriple]

/-- C1 (amended): for every match where both sources report `(0,0,0)`,
the fused triple is exactly `(0.333, 0.333, 0.333)` — the hard-coded
fallback of lines 200–202, summing to `0.999`, not the uniform
`(1/3, 1/3, 1/3)` — and the outcome is `HOME_WIN` (result code 3). -/
theorem fusion_degenerate_uniform (b a : MatchRecord)
    (hb : extractProbs b.probs b.homeTeam b.awayTeam = ⟨0, 0, 0⟩)
    (ha : extractProbs a.probs b.homeTeam b.awayTeam = ⟨0, 0, 0⟩) :
    (fuseOne b a).fused = ⟨333/1000, 333/1000, 333/1000⟩ ∧
    (fuseOne b a).result = 3 := by
  have hf : (fuseOne b a).fused = ⟨333/1000, 333/1000, 333/1000⟩ := by
    rw [fuseOne_fused, hb, ha]
    norm_num [combinedTriple, normalizeTriple]
  exact ⟨hf, by rw [fuseOne_result, hf]; exact decideResult_uniform⟩

/-- C1 witness: the amended statement at the two concrete all-zero
records. -/
theorem fusion_degenerate_uniform_witness :
    (fuseOne zeroBasicRecord zeroAdvancedRecord).fused = ⟨333/1000, 333/1000, 333/1000⟩ ∧
    (fuseOne zeroBasicRecord zeroAdvancedRecord).result = 3 :=
  fusion_degenerate_uniform zeroBasicRecord zeroAdvancedRecord rfl rfl

/-! ## Claim C2 — outcome decision ordering -/

/-- C2: the outcome decision tests home-win first (`3` iff the win
component is ≥ both others), then draw (`1` iff the draw component is
≥ both others and the home-win test failed), else away-win (`0`); in
particular `(0.4, 0.4, 0.2)` gives `3` and `(0.2, 0.4, 0.4)` gives `1`. -/
theorem decideResult_ordering :
    (∀ n : SourceProbs,
      (decideResult n = 3 ↔ n.draw ≤ n.win ∧ n.loss ≤ n.win) ∧
      (decideResult n = 1 ↔
        ¬(n.draw ≤ n.win ∧ n.loss ≤ n.win) ∧ n.win ≤ n.draw ∧ n.loss ≤ n.draw) ∧
      (decideResult n = 0 ↔
        ¬(n.draw ≤ n.win ∧ n.loss ≤ n.win) ∧ ¬(n.win ≤ n.draw ∧ n.loss ≤ n.draw))) ∧
    decideResult ⟨2/5, 2/5, 1/5⟩ = 3 ∧
    decideResult ⟨1/5, 2/5, 2/5⟩ = 1 := by
  refine ⟨fun n => ?_, ?_, ?_⟩
  · unfold decideResult
    split_ifs with h1 h2 <;> simp_all
  · rw [decideResult, if_pos]
    constructor <;> norm_num
  · rw [decideResult, if_neg, if_pos]
    · constructor <;> norm_num
    · rintro ⟨h1, -⟩
      norm_num at h1

/-! ## Claim C6 — discounted-basic weighting scenario -/

/-- The basic-source record of the end-to-end scenario:
`{win: 0.50, draw: 0.30, loss: 0.20}`. -/
def scenarioBasicRecord : MatchRecord :=
  { matchId := "2", league := "西甲", homeTeam := "皇马", awayTeam := "巴萨",
    matchTime := "2026-02-07 20:00",
    probs := some [("胜", .num (1/2)), ("平", .num (3/10)), ("负", .num (1/5))],
    detail := none }

/-- The advanced-source record of the end-to-end scenario:
`{win: 0.10, draw: 0.05, loss: 0.05}`. -/
def scenarioAdvancedRecord : MatchRecord :=
  { matchId := "2", league := "西甲", homeTeam := "皇马", awayTeam := "巴萨",
    matchTime := "2026-02-07 20:00",
    probs := some [("胜", .num (1/10)), ("平", .num (1/20)), ("负", .num (1/20))],
    detail := none }

/-- C6: under the discounted-basic weighting (`basic × 0.8 + advanced`,
which is what `combinedTriple` computes for every outcome), the scenario
sources `(0.50, 0.30, 0.20)` and `(0.10, 0.05, 0.05)` combine to
`(0.50, 0.29, 0.21)`, normalize to the same triple, and resolve to
`HOME_WIN` (3). -/
theorem discounted_weighting_end_to_end :
    (∀ p q : SourceProbs, combinedTriple p q
      = ⟨p.win * (8/10) + q.win, p.draw * (8/10) + q.draw, p.loss * (8/10) + q.loss⟩) ∧
    combinedTriple
      (extractProbs scenarioBasicRecord.probs scenarioBasicRecord.homeTeam
        scenarioBasicRecord.awayTeam)
      (extractProbs scenarioAdvancedRecord.probs scenarioBasicRecord.homeTeam
        scenarioBasicRecord.awayTeam)
      = ⟨1/2, 29/100, 21/100⟩ ∧
    (fuseOne scenarioBasicRecord scenarioAdvancedRecord).fused = ⟨1/2, 29/100, 21/100⟩ ∧
    (fuseOne scenarioBasicRecord scenarioAdvancedRecord).result = 3 := by
  have hb : extractProbs scenarioBasicRecord.probs scenarioBasicRecord.homeTeam
      scenarioBasicRecord.awayTeam = ⟨1/2, 3/10, 1/5⟩ :=
    extractProbs_eval _ _ _ _ _ _ (by norm_num) (by norm_num) (by norm_num)
      rfl rfl rfl rfl rfl
  have ha : extractProbs scenarioAdvancedRecord.probs scenarioBasicRecord.homeTeam
      scenarioBasicRecord.awayTeam = ⟨1/10, 1/20, 1/20⟩ :=
    extractProbs_eval _ _ _ _ _ _ (by norm_num) (by norm_num) (by norm_num)
      rfl rfl rfl rfl rfl
  have hc : combinedTriple (⟨1/2, 3/10, 1/5⟩ : SourceProbs) ⟨1/10, 1/20, 1/20⟩
      = ⟨1/2, 29/100, 21/100⟩ := by
    norm_num [combinedTriple]
  have hf : (fuseOne scenarioBasicRecord scenarioAdvancedRecord).fused
      = ⟨1/2, 29/100, 21/100⟩ := by
    rw [fuseOne_fused, hb, ha, hc]
    norm_num [normalizeTriple]
  refine ⟨fun p q => rfl, by rw [hb, ha]; exact hc, hf, ?_⟩
  rw [fuseOne_result, hf, decideResult, if_pos]
  constructor <;> norm_num

/-! ## Claim C5 — normalization sums to one -/

/-- Componentwise nonnegativity of an extracted triple — the data model
declares source probabilities to be floats in `[0,1]`. -/
def NonnegProbs (p : SourceProbs) : Prop :=
  0 ≤ p.win ∧ 0 ≤ p.draw ∧ 0 ≤ p.loss

/-- C5: when the extracted source triples are nonnegative and their
combined triple does not sum to zero (the non-degenerate case), the fused
normalized triple sums to `1.0` within tolerance `1e-9` (in fact
exactly). -/
theorem fused_sum_within_tolerance (b a : MatchRecord)
    (hb : NonnegProbs (extractProbs b.probs b.homeTeam b.awayTeam))
    (ha : NonnegProbs (extractProbs a.probs b.homeTeam b.awayTeam))
    (hz : (combinedTriple (extractProbs b.probs b.homeTeam b.awayTeam)
            (extractProbs a.probs b.homeTeam b.awayTeam)).win
        + (combinedTriple (extractProbs b.probs b.homeTeam b.awayTeam)
            (extractProbs a.probs b.homeTeam b.awayTeam)).draw
        + (combinedTriple (extractProbs b.probs b.homeTeam b.awayTeam)
            (extractProbs a.probs b.homeTeam b.awayTeam)).loss ≠ 0) :
    |(fuseOne b a).fused.win + (fuseOne b a).fused.draw + (fuseOne b a).fused.loss - 1|
      ≤ 1/1000000000 := by
  set pb := extractProbs b.probs b.homeTeam b.awayTeam with hpb
  set pa := extractProbs a.probs b.homeTeam b.awayTeam with hpa
  have hcw : 0 ≤ (combinedTriple pb pa).win :=
    add_nonneg (mul_nonneg hb.1 (by norm_num)) ha.1
  have hcd : 0 ≤ (combinedTriple pb pa).draw :=
    add_nonneg (mul_nonneg hb.2.1 (by norm_num)) ha.2.1
  have hcl : 0 ≤ (combinedTriple pb pa).loss :=
    add_nonneg (mul_nonneg hb.2.2 (by norm_num)) ha.2.2
  have htot : 0 < (combinedTriple pb pa).win + (combinedTriple pb pa).draw
      + (combinedTriple pb pa).loss :=
    lt_of_le_of_ne (add_nonneg (add_nonneg hcw hcd) hcl) (Ne.symm hz)
  rw [fuseOne_fused]
  simp only [normalizeTriple, ← hpb, ← hpa]
  rw [if_pos htot]
  rw [div_add_div_same, div_add_div_same, div_self htot.ne']
  norm_num

/-- Basic-source record for the C5 witness: `(0.40, 0.40, 0.20)`. -/
def sumBasicRecord : MatchRecord :=
  { matchId := "3", league := "意甲", homeTeam := "米兰", awayTeam := "国米",
    matchTime := "2026-02-07 19:00",
    probs := some [("胜", .num (2/5)), ("平", .num (2/5)), ("负", .num (1/5))],
    detail := none }

/-- Advanced-source record for the C5 witness: `(0.20, 0.20, 0.10)`. -/
def sumAdvancedRecord : MatchRecord :=
  { matchId := "3", league := "意甲", homeTeam := "米兰", awayTeam := "国米",
    matchTime := "2026-02-07 19:00",
    probs := some [("胜", .num (1/5)), ("平", .num (1/5)), ("负", .num (1/10))],
    detail := none }

/-- C5 witness: the tolerance bound evaluated on a concrete
non-degenerate pair of sources. -/
theorem fused_sum_within_tolerance_witness :
    |(fuseOne sumBasicRecord sumAdvancedRecord).fused.win
      + (fuseOne sumBasicRecord sumAdvancedRecord).fused.draw
      + (fuseOne sumBasicRecord sumAdvancedRecord).fused.loss - 1|
      ≤ 1/1000000000 := by
  have hb : extractProbs sumBasicRecord.probs sumBasicRecord.homeTeam
      sumBasicRecord.awayTeam = ⟨2/5, 2/5, 1/5⟩ :=
    extractProbs_eval _ _ _ _ _ _ (by norm_num) (by norm_num) (by norm_num)
      rfl rfl rfl rfl rfl
  have ha : extractProbs sumAdvancedRecord.probs sumBasicRecord.homeTeam
      sumBasicRecord.awayTeam = ⟨1/5, 1/5, 1/10⟩ :=
    extractProbs_eval _ _ _ _ _ _ (by norm_num) (by norm_num) (by norm_num)
      rfl rfl rfl rfl rfl
  refine fused_sum_within_tolerance sumBasicRecord sumAdvancedRecord ?_ ?_ ?_
  · rw [hb]
    exact ⟨by norm_num, by norm_num, by norm_num⟩
  · rw [ha]
    exact ⟨by norm_num, by norm_num, by norm_num⟩
  · rw [hb, ha]
    norm_num [combinedTriple]

/-! ## Claim C8 — attachment of the supplementary payload -/

/-- A basic record carrying no `预测详细数据` payload. -/
def plainBasicRecord : MatchRecord :=
  { matchId := "4", league := "德甲", homeTeam := "拜仁", awayTeam := "多特",
    matchTime := "2026-02-07 22:30", probs := none, detail := none }

/-- An advanced record carrying no `预测详细数据` payload. -/
def plainAdvancedRecord : MatchRecord :=
  { matchId := "4", league := "德甲", homeTeam := "拜仁", awayTeam := "多特",
    matchTime := "2026-02-07 22:30", probs := none, detail := none }

/-- C8 counterexample: when neither matched record carries a
`预测详细数据` payload, the fused result does **not** attach nothing — it
attaches the empty-object placeholder `{}` of line 236. -/
theorem fusion_attaches_empty_placeholder :
    plainAdvancedRecord.detail = none ∧ plainBasicRecord.detail = none ∧
    (fuseOne plainBasicRecord plainAdvancedRecord).detail = JsVal.obj [] :=
  ⟨rfl, rfl, rfl⟩

/-- C8 (amended): the advanced record's `预测详细数据` payload, when
present (and truthy — every object is), is attached verbatim; otherwise
the basic record's payload is attached verbatim; when neither record
carries one, the empty object `{}` is attached (not nothing, and without
a warning). -/
theorem fusion_detail_attachment (b a : MatchRecord) (v : JsVal) :
    (a.detail = some v → jsTruthy v = true → (fuseOne b a).detail = v) ∧
    (a.detail = none → b.detail = some v → jsTruthy v = true → (fuseOne b a).detail = v) ∧
    (a.detail = none → b.detail = none → (fuseOne b a).detail = JsVal.obj []) := by
  refine ⟨fun h1 h2 => ?_, fun h1 h2 h3 => ?_, fun h1 h2 => ?_⟩ <;>
    rw [fuseOne_detail] <;> simp [jsOr, h1, h2]
  intro h
  simp_all

/-- An advanced record carrying a strength-differential payload. -/
def detailAdvancedRecord : MatchRecord :=
  { matchId := "4", league := "德甲", homeTeam := "拜仁", awayTeam := "多特",
    matchTime := "2026-02-07 22:30", probs := none,
    detail := some (.obj [("强度差", .num 5)]) }

/-- C8 witness: the advanced record's payload is attached verbatim. -/
theorem fusion_detail_attachment_witness :
    (fuseOne plainBasicRecord detailAdvancedRecord).detail
      = JsVal.obj [("强度差", .num 5)] :=
  (fusion_detail_attachment plainBasicRecord detailAdvancedRecord
    (.obj [("强度差", .num 5)])).1 rfl rfl

/-! ## Claims C9 and C10 — the matching loop -/

theorem combineLoop_length_le (advancedMatches basicMatches : List MatchRecord) :
    (combineLoop advancedMatches basicMatches).length ≤ basicMatches.length := by
  induction basicMatches with
  | nil => simp [combineLoop]
  | cons b rest ih =>
    rw [combineLoop]
    cases h : advancedMatches.find? (fun m => m.matchId == b.matchId) with
    | none => exact le_trans ih (Nat.le_succ _)
    | some a => simpa using ih

theorem combineLoop_mem_of_found (advancedMatches basicMatches : List MatchRecord)
    (b a : MatchRecord) (hb : b ∈ basicMatches)
    (hf : advancedMatches.find? (fun m => m.matchId == b.matchId) = some a) :
    fuseOne b a ∈ combineLoop advancedMatches basicMatches := by
  induction basicMatches with
  | nil => cases hb
  | cons hd rest ih =>
    rw [combineLoop]
    rcases List.mem_cons.mp hb with hb | hb
    · subst hb
      rw [hf]
      exact List.mem_cons_self _ _
    · cases h : advancedMatches.find? (fun m => m.matchId == hd.matchId) with
      | none => exact ih hb
      | some a2 => exact List.mem_cons_of_mem _ (ih hb)

theorem combineLoop_matchId_from_advanced (advancedMatches basicMatches : List MatchRecord)
    (r : FusedResult) (hr : r ∈ combineLoop advancedMatches basicMatches) :
    ∃ x ∈ advancedMatches, r.matchId = x.matchId := by
  induction basicMatches with
  | nil => simp [combineLoop] at hr
  | cons b rest ih =>
    rw [combineLoop] at hr
    cases h : advancedMatches.find? (fun m => m.matchId == b.matchId) with
    | none =>
      rw [h] at hr
      exact ih hr
    | some a =>
      rw [h] at hr
      rcases List.mem_cons.mp hr with hr | hr
      · refine ⟨a, List.mem_of_find?_eq_some h, ?_⟩
        have hpa := List.find?_some h
        have : a.matchId = b.matchId := by simpa using hpa
        rw [hr]
        exact this.symm
      · exact ih hr

theorem combineLoop_eq_filterMap (advancedMatches basicMatches : List MatchRecord) :
    combineLoop advancedMatches basicMatches
      = basicMatches.filterMap
          (fun b => (advancedMatches.find? (fun m => m.matchId == b.matchId)).map (fuseOne b)) := by
  induction basicMatches with
  | nil => rfl
  | cons b rest ih =>
    rw [combineLoop, List.filterMap_cons]
    cases h : advancedMatches.find? (fun m => m.matchId == b.matchId) with
    | none => simpa [h] using ih
    | some a => simpa [h] using ih

theorem calculate_ok_of_nonempty (basic advanced : List MatchRecord)
    (hb : basic ≠ []) (ha : advanced ≠ []) :
    calculateCombinedProbabilities (some basic) (some advanced)
      = .ok (combineLoop advanced basic) := by
  unfold calculateCombinedProbabilities
  simp only [Option.getD_some]
  rw [if_neg (by simpa [List.length_eq_zero] using hb),
    if_neg (by simpa [List.length_eq_zero] using ha)]

/-- C9: with non-empty inputs no exception propagates
(`calculateCombinedProbabilities` returns `ok`); a basic record with no
advanced counterpart is skipped — the output can only be shorter than the
basic input, every matched basic record still contributes its fused
result, and a match id absent from the advanced source never appears in
the output. -/
theorem calculate_skips_unmatched (basic advanced : List MatchRecord)
    (hb : basic ≠ []) (ha : advanced ≠ []) :
    ∃ rs, calculateCombinedProbabilities (some basic) (some advanced) = .ok rs ∧
      rs.length ≤ basic.length ∧
      (∀ b ∈ basic, ∀ aRec, advanced.find? (fun m => m.matchId == b.matchId) = some aRec →
        fuseOne b aRec ∈ rs) ∧
      (∀ mid : String, (∀ x ∈ advanced, x.matchId ≠ mid) → ∀ r ∈ rs, r.matchId ≠ mid) := by
  refine ⟨combineLoop advanced basic, calculate_ok_of_nonempty basic advanced hb ha,
    combineLoop_length_le advanced basic,
    fun b hbm aRec hf => combineLoop_mem_of_found advanced basic b aRec hbm hf,
    fun mid hmid r hr => ?_⟩
  obtain ⟨x, hx, he⟩ := combineLoop_matchId_from_advanced advanced basic r hr
  rw [he]
  exact hmid x hx

/-- Basic record `"101"` with no advanced counterpart. -/
def basic101 : MatchRecord :=
  { matchId := "101", league := "法甲", homeTeam := "巴黎", awayTeam := "里昂",
    matchTime := "2026-02-07 21:00", probs := none, detail := none }

/-- Basic record `"102"`, matched in the advanced source. -/
def basic102 : MatchRecord :=
  { matchId := "102", league := "法甲", homeTeam := "摩纳哥", awayTeam := "马赛",
    matchTime := "2026-02-07 21:00", probs := none, detail := none }

/-- Advanced record `"102"`. -/
def advanced102 : MatchRecord :=
  { matchId := "102", league := "法甲", homeTeam := "摩纳哥", awayTeam := "马赛",
    matchTime := "2026-02-07 21:00", probs := none, detail := none }

/-- C9 witness: the spec's unmatched-record scenario — basic `"101"`
absent from the advanced source is excluded from the output, with no
error. -/
theorem calculate_skips_unmatched_witness :
    ∃ rs, calculateCombinedProbabilities (some [basic101, basic102]) (some [advanced102])
        = .ok rs ∧
      rs.length ≤ 2 ∧ ∀ r ∈ rs, r.matchId ≠ "101" := by
  obtain ⟨rs, h1, h2, -, h4⟩ :=
    calculate_skips_unmatched [basic101, basic102] [advanced102] (by simp) (by simp)
  refine ⟨rs, h1, by simpa using h2, h4 "101" ?_⟩
  intro x hx
  rw [List.mem_singleton.mp hx]
  decide

/-- C10: with non-empty inputs the output is exactly one fused result per
basic record that has an advanced counterpart, in basic-source iteration
order — a `filterMap` over the basic sequence, so the advanced source's
ordering never reorders the output. -/
theorem calculate_output_order (basic advanced : List MatchRecord)
    (hb : basic ≠ []) (ha : advanced ≠ []) :
    calculateCombinedProbabilities (some basic) (some advanced)
      = .ok (basic.filterMap
          (fun b => (advanced.find? (fun m => m.matchId == b.matchId)).map (fuseOne b))) := by
  rw [calculate_ok_of_nonempty basic advanced hb ha, combineLoop_eq_filterMap]

/-- C10 witness: the concrete two-record basic source produces exactly
the fused `"102"` result, in basic order. -/
theorem calculate_output_order_witness :
    calculateCombinedProbabilities (some [basic101, basic102]) (some [advanced102])
      = .ok [fuseOne basic102 advanced102] := by
  rw [calculate_output_order [basic101, basic102] [advanced102] (by simp) (by simp)]
  rfl

end Football
